import Mathlib

/-!
Shallow embedding of the timelapse capture/assembly orchestrator
(src/timelapse.cpp, src/main.cpp, src/utils.cpp) for checking its
natural-language specification.

External effects (the wall clock, the spawned capture process, the image
decoder, the video writer, writability of the status file) are supplied as
explicit environment records; the orchestrator's own control flow, state
updates and computed values are translated statement by statement from the
C++ source. Machine `int`/`long` values are modelled as `Int` (the program
never exercises overflow), `std::vector<std::string>` as `List String`.
-/

namespace Timelapse

/-- The immutable-after-construction members of class `TimeLapse`
(timelapse.hpp): configuration and today's schedule. The source field
`filename_prefix` is named `filename_stem` here. -/
structure Config where
  output_dir : String
  filename_stem : String
  base_capture_command : String
  device_id : String
  date_str : String
  start_time : String
  end_time : String
  interval_seconds : Int
  expected_photos : Int
  video_filename : String
deriving Repr, DecidableEq

/-- The mutable members of class `TimeLapse` (timelapse.hpp): photo counter,
frame-path sequence, error counter and last-attempt metrics.
`last_capture_duration_ms` is a C++ `double` in the source but is only ever
assigned a whole milliseconds count (`duration_cast<milliseconds>(..).count()`),
so it is modelled as `Int`. -/
structure RunState where
  photo_count : Nat
  photo_files : List String
  capture_errors : Nat
  last_capture_duration_ms : Int
  last_capture_success : Bool
  last_capture_epoch : Int
deriving Repr, DecidableEq

/-- The constructor's member-initializer list (timelapse.cpp line 33):
photo_count 0, capture_errors 0, last duration 0, last success false,
last epoch 0, and `photo_files` default-constructed empty. -/
def initialRunState : RunState :=
  { photo_count := 0
    photo_files := []
    capture_errors := 0
    last_capture_duration_ms := 0
    last_capture_success := false
    last_capture_epoch := 0 }

/-- What the world presents to one `capture_photo` call: the raw value
returned by `std::system`, whether the produced output file is readable
(a fact `capture_photo` could inspect but, as proved below, never does),
and the epoch-seconds clock reading taken in the success branch. -/
structure CaptureEnv where
  systemResult : Int
  fileReadable : Bool
  epochNow : Int
deriving Repr, DecidableEq

/-- glibc's `WEXITSTATUS`: the low 8 bits of `status >> 8`. `std::system`
returns -1 or a nonnegative wait status, and the source consults
`WEXITSTATUS` only after ruling out -1, so taking `toNat` first is faithful
on every reachable input. -/
def wexitstatus (r : Int) : Nat :=
  (r.toNat / 256) % 256

/-- `std::setw(4)` with `std::setfill` zero on a nonnegative int: the decimal
rendering, left-padded with zeros to at least four characters. -/
def zeroPad4 (n : Nat) : String :=
  let s := toString n
  if s.length < 4 then String.mk (List.replicate (4 - s.length) '0' ++ s.data) else s

/-- The output filename assembled in `capture_photo` (timelapse.cpp lines
271..278): `output_dir` + prefix + zero-padded 4-digit counter + ".jpg". -/
def photoFilename (cfg : Config) (count : Nat) : String :=
  cfg.output_dir ++ cfg.filename_stem ++ zeroPad4 count ++ ".jpg"

/-- `TimeLapse::capture_photo` (timelapse.cpp lines 263..340): increment the
photo counter, build the filename, run the external command and classify the
attempt. Returns the C++ function's boolean together with the updated state.
The branches mirror the source: `system() == -1` is a failure,
`WEXITSTATUS != 0` is a failure, anything else is a success which records the
epoch timestamp and appends the filename to `photo_files`. Logging is the
only omitted effect. -/
def capture_photo (cfg : Config) (env : CaptureEnv) (s : RunState) : Bool × RunState :=
  let count := s.photo_count + 1
  let filename := photoFilename cfg count
  let s1 : RunState := { s with photo_count := count }
  if env.systemResult = -1 then
    (false, { s1 with capture_errors := s1.capture_errors + 1, last_capture_success := false })
  else if wexitstatus env.systemResult ≠ 0 then
    (false, { s1 with capture_errors := s1.capture_errors + 1, last_capture_success := false })
  else
    (true, { s1 with last_capture_success := true
                     last_capture_epoch := env.epochNow
                     photo_files := s1.photo_files ++ [filename] })

/-- The success classification `capture_photo` actually applies: launch did
not fail (-1) and the wait status's exit code is 0. -/
def captureSucceeds (env : CaptureEnv) : Bool :=
  decide (env.systemResult ≠ -1 ∧ wexitstatus env.systemResult = 0)

/-- Fields of the JSON object `write_status_file` emits (timelapse.cpp lines
112..126), modelled as a record of the written values rather than the text. -/
structure StatusSnapshot where
  status : String
  device_id : String
  date : String
  photos_captured : Nat
  expected_photos : Int
  capture_errors : Nat
  last_capture_success : Bool
  last_capture_timestamp : Int
  last_capture_duration_ms : Int
  start_time : String
  end_time : String
  interval_seconds : Int
  updated_at : Int
deriving Repr, DecidableEq

/-- The snapshot `write_status_file` builds from the current state: every
field is a direct projection of `Config`/`RunState` plus the status label and
the clock reading taken at the top of the function. -/
def statusSnapshotOf (status : String) (cfg : Config) (s : RunState) (epochNow : Int) :
    StatusSnapshot :=
  { status := status
    device_id := cfg.device_id
    date := cfg.date_str
    photos_captured := s.photo_count
    expected_photos := cfg.expected_photos
    capture_errors := s.capture_errors
    last_capture_success := s.last_capture_success
    last_capture_timestamp := s.last_capture_epoch
    last_capture_duration_ms := s.last_capture_duration_ms
    start_time := cfg.start_time
    end_time := cfg.end_time
    interval_seconds := cfg.interval_seconds
    updated_at := epochNow }

/-- `TimeLapse::write_status_file` (timelapse.cpp lines 101..128): if the
file opens, the snapshot is written; otherwise a warning is logged and the
function returns with no other effect. `writable` stands for
`std::ofstream(STATUS_FILE).is_open()`. -/
def write_status_file (status : String) (cfg : Config) (s : RunState)
    (writable : Bool) (epochNow : Int) : Option StatusSnapshot :=
  if writable then some (statusSnapshotOf status cfg s epochNow) else none

/-- The per-tick environment inside `run`'s capture loop: the capture call's
environment, the measured tick duration as `duration_cast<seconds>` and as
`duration_cast<milliseconds>` of the same interval, and the status-file
conditions for the post-tick `write_status_file("capturing")`. -/
structure TickEnv where
  cap : CaptureEnv
  durationSec : Int
  durationMs : Int
  statusWritable : Bool
  statusEpoch : Int
deriving Repr, DecidableEq

/-- The compensating sleep the loop performs (timelapse.cpp lines 444..449):
`sleep_time = interval_seconds - elapsed`; slept only when positive,
otherwise skipped. The returned value is the seconds actually slept. -/
def tickSleep (interval elapsed : Int) : Int :=
  if interval - elapsed > 0 then interval - elapsed else 0

/-- Whether the loop's else-branch drift warning
("Warning: Capture took longer than interval!") is logged: exactly when the
computed sleep_time is not positive. -/
def tickDrift (interval elapsed : Int) : Bool :=
  decide (¬ (interval - elapsed > 0))

/-- One tick's observable outcome. -/
structure TickResult where
  state : RunState
  ok : Bool
  snapshot : Option StatusSnapshot
  sleepSec : Int
  drift : Bool
deriving Repr, DecidableEq

/-- One iteration of `run`'s capture loop (timelapse.cpp lines 425..450):
call `capture_photo`, store the measured duration in
`last_capture_duration_ms`, write the "capturing" status snapshot, then
sleep the compensated remainder (or log the drift warning). -/
def runTick (cfg : Config) (t : TickEnv) (s : RunState) : TickResult :=
  let r := capture_photo cfg t.cap s
  let s2 : RunState := { r.2 with last_capture_duration_ms := t.durationMs }
  { state := s2
    ok := r.1
    snapshot := write_status_file "capturing" cfg s2 t.statusWritable t.statusEpoch
    sleepSec := tickSleep cfg.interval_seconds t.durationSec
    drift := tickDrift cfg.interval_seconds t.durationSec }

/-- The capture loop: `while (!is_time_to_stop())` runs one tick per
iteration; the wall clock (external) determines how many iterations happen,
so the loop is modelled over the finite list of tick environments the clock
admits. Returns the final state and the per-tick outcomes in order. -/
def captureLoop (cfg : Config) : List TickEnv → RunState → RunState × List TickResult
  | [], s => (s, [])
  | t :: ts, s =>
    let r := runTick cfg t s
    let rest := captureLoop cfg ts r.state
    (rest.1, r :: rest.2)

/-- What the world presents to `create_video`: whether `cv::imread` of a
given path decodes to a non-empty image, and whether the `cv::VideoWriter`
opens. -/
structure VideoEnv where
  decodes : String → Bool
  writerOpens : Bool

/-- The frame rate hard-coded in `create_video` (timelapse.cpp line 358). -/
def fps : Nat := 25

/-- `create_video`'s observable outcome: the frames written to the video
file in order (`none` when no video file is produced), the logged
"Actual video length" value when that log line is reached, and the log
messages identifying the branch taken. Per-100-frame progress logging is
observational only and omitted. -/
structure VideoResult where
  video : Option (List String)
  reportedLength : Option ℚ
  logs : List String
deriving DecidableEq

/-- `TimeLapse::create_video` (timelapse.cpp lines 343..409): empty frame
list is a logged no-op; an undecodable first frame aborts before the writer
is created; a writer that fails to open aborts; otherwise every frame whose
`imread` decodes is written, in list order, and the "actual video length" is
computed as `photo_files.size() / fps`. -/
def creatingLogMsg (n : Nat) : String :=
  "Creating video from " ++ toString n ++ " photos using OpenCV..."

def create_video (env : VideoEnv) (video_filename : String) (photo_files : List String) :
    VideoResult :=
  match photo_files with
  | [] =>
    { video := none
      reportedLength := none
      logs := ["No photos to create video from! Skipping."] }
  | p :: ps =>
    if env.decodes p = false then
      { video := none
        reportedLength := none
        logs := [creatingLogMsg (p :: ps).length,
          "Error reading first image! Cannot determine frame size. Check photo integrity."] }
    else if env.writerOpens = false then
      { video := none
        reportedLength := none
        logs := [creatingLogMsg (p :: ps).length,
          "Error creating cv::VideoWriter! Check dependencies (FFMPEG) and permissions."] }
    else
      { video := some ((p :: ps).filter env.decodes)
        reportedLength := some (((p :: ps).length : ℚ) / (fps : ℚ))
        logs := [creatingLogMsg (p :: ps).length,
          "Video saved as " ++ video_filename,
          "Video compilation finished."] }

/-- The external circumstances of one whole `run`: the ticks the wall clock
admits, the number of 30-second polls spent waiting for the start time, and
the status-file conditions at the four phase-transition writes. -/
structure RunEnv where
  ticks : List TickEnv
  waitPolls : Nat
  waitWritable : Bool
  waitEpoch : Int
  startWritable : Bool
  startEpoch : Int
  assembleWritable : Bool
  assembleEpoch : Int
  finishWritable : Bool
  finishEpoch : Int
  video : VideoEnv

/-- A whole run's observable outcome. `statusTrace` lists the status labels
passed to `write_status_file`, in call order. -/
structure RunResult where
  finalState : RunState
  statusTrace : List String
  snapshots : List (Option StatusSnapshot)
  waitSleeps : List Int
  tickResults : List TickResult
  videoResult : VideoResult

/-- `TimeLapse::run` (timelapse.cpp lines 412..461) on the path where the
time-of-day guards evaluate without throwing: write "waiting", poll in
30-second sleeps until the start time, write "capturing", run the capture
loop (each tick writes "capturing" again), write "creating_video", run
`create_video`, write "finished". The guards `is_time_to_start` and
`is_time_to_stop` call `time_to_seconds` on the schedule's start/end
strings; when that parse throws, the exception escapes `run` — that
deterministic escape is modelled by `runChecked` below, which wraps this
function and is what `main_model` executes. -/
def run (cfg : Config) (renv : RunEnv) (s0 : RunState) : RunResult :=
  let wSnap := write_status_file "waiting" cfg s0 renv.waitWritable renv.waitEpoch
  let cSnap := write_status_file "capturing" cfg s0 renv.startWritable renv.startEpoch
  let lr := captureLoop cfg renv.ticks s0
  let aSnap := write_status_file "creating_video" cfg lr.1 renv.assembleWritable renv.assembleEpoch
  let vres := create_video renv.video cfg.video_filename lr.1.photo_files
  let fSnap := write_status_file "finished" cfg lr.1 renv.finishWritable renv.finishEpoch
  { finalState := lr.1
    statusTrace :=
      "waiting" :: "capturing" ::
        (lr.2.map (fun _ => "capturing") ++ ["creating_video", "finished"])
    snapshots := wSnap :: cSnap :: (lr.2.map (·.snapshot) ++ [aSnap, fSnap])
    waitSleeps := List.replicate renv.waitPolls (30 : Int)
    tickResults := lr.2
    videoResult := vres }

/-- The outcome of `TimeLapse`'s constructor as `main` observes it: either a
fully initialized object or one of the `std::runtime_error` throws (directory
creation, config load, schedule load, output-directory creation). -/
inductive SetupOutcome where
  | ok (cfg : Config)
  | dirCreationFailed
  | configLoadFailed
  | scheduleLoadFailed
  | outputDirFailed

/-- The names of the successfully captured frames a tick list produces when
the photo counter starts at `count`: one filename per succeeding tick, in
tick order, the counter advancing on every tick. -/
def successFilenames (cfg : Config) : Nat → List TickEnv → List String
  | _, [] => []
  | count, t :: ts =>
    if captureSucceeds t.cap then
      photoFilename cfg (count + 1) :: successFilenames cfg (count + 1) ts
    else
      successFilenames cfg (count + 1) ts

/-- Collapse consecutive equal elements: the sequence of distinct phases a
status trace passes through. -/
def collapseRuns : List String → List String
  | [] => []
  | [a] => [a]
  | a :: b :: rest =>
    if a = b then collapseRuns (b :: rest) else a :: collapseRuns (b :: rest)

/-! ## The time-of-day parser (`time_to_seconds`) and its callers -/

/-- The whitespace class `std::stoi` (via `strtol`/`isspace` in the "C"
locale) skips before converting. -/
def isCppSpace (c : Char) : Bool :=
  c = ' ' ∨ c = '\t' ∨ c = '\n' ∨ c = '\x0b' ∨ c = '\x0c' ∨ c = '\r'

/-- Value of a nonempty digit string, most significant first. -/
def digitsToNat (ds : List Char) : Nat :=
  ds.foldl (fun acc c => acc * 10 + (c.toNat - 48)) 0

/-- `std::stoi`: skip leading whitespace, an optional sign, then a nonempty
digit run; no digits is an error (`std::invalid_argument`). Overflow
(`std::out_of_range`) cannot occur on the two-character substrings
`time_to_seconds` passes and is not modelled. -/
def cppStoi (str : String) : Except Unit Int :=
  match str.data.dropWhile isCppSpace with
  | '-' :: rest =>
    let ds := rest.takeWhile Char.isDigit
    if ds.isEmpty then .error () else .ok (-(digitsToNat ds : Int))
  | '+' :: rest =>
    let ds := rest.takeWhile Char.isDigit
    if ds.isEmpty then .error () else .ok ((digitsToNat ds : Int))
  | cs =>
    let ds := cs.takeWhile Char.isDigit
    if ds.isEmpty then .error () else .ok ((digitsToNat ds : Int))

/-- `std::string::substr(pos, len)`: `std::out_of_range` when `pos` exceeds
the length, otherwise up to `len` characters from `pos`. -/
def cppSubstr (s : String) (pos len : Nat) : Except Unit String :=
  if s.data.length < pos then .error ()
  else .ok (String.mk ((s.data.drop pos).take len))

/-- `TimeLapse::time_to_seconds` (timelapse.cpp lines 235..240): fixed
positions `substr(0,2)`, `substr(3,2)`, `substr(6,2)` fed to `stoi`, combined
as hours*3600 + minutes*60 + seconds. An exception from `substr` or `stoi`
escapes the function, modelled as `Except.error`. -/
def time_to_seconds (time_str : String) : Except Unit Int := do
  let hour ← cppStoi (← cppSubstr time_str 0 2)
  let minute ← cppStoi (← cppSubstr time_str 3 2)
  let second ← cppStoi (← cppSubstr time_str 6 2)
  return hour * 3600 + minute * 60 + second

/-- The only validation `load_today_schedule` applies to the parsed fields
(timelapse.cpp line 226): the three strings nonempty and the interval
positive. Returns true when the load FAILS with "Essential schedule data
missing or invalid." -/
def essential_schedule_missing (date start_t end_t : String) (interval : Int) : Bool :=
  date.isEmpty || start_t.isEmpty || end_t.isEmpty || decide (interval ≤ 0)

/-- A string of the exact form HH:MM:SS: two digits, a colon, two digits, a
colon, two digits (the form the specification says `time_to_seconds`
assumes). -/
def isHHMMSS (s : String) : Bool :=
  match s.data with
  | [a, b, c, d, e, f, g, h] =>
    a.isDigit && b.isDigit && (c == ':') && d.isDigit && e.isDigit && (f == ':') &&
      g.isDigit && h.isDigit
  | _ => false

/-- A well-formed HH:MM:SS string from numeric components below 100. -/
def mkHHMMSS (h m s : Nat) : String :=
  String.mk [Char.ofNat (48 + h / 10), Char.ofNat (48 + h % 10), ':',
             Char.ofNat (48 + m / 10), Char.ofNat (48 + m % 10), ':',
             Char.ofNat (48 + s / 10), Char.ofNat (48 + s % 10)]

/-- Whether a `time_to_seconds` parse returns normally (no exception). -/
def parses (r : Except Unit Int) : Bool :=
  match r with
  | .ok _ => true
  | .error _ => false

/-- Whether both schedule time strings parse, so no exception escapes the
time-of-day guards during `run`. -/
def timesParse (cfg : Config) : Bool :=
  parses (time_to_seconds cfg.start_time) && parses (time_to_seconds cfg.end_time)

/-- `TimeLapse::run` including the deterministic exception escape from its
loop guards: after the "waiting" status write, the first
`is_time_to_start()` call evaluates `time_to_seconds(start_time)` — if that
throws, the exception escapes `run` with only "waiting" written; otherwise,
once the start time is crossed and "capturing" is written, the first
`is_time_to_stop()` call evaluates `time_to_seconds(end_time)` — if that
throws, the exception escapes with "waiting" and "capturing" written. With
both parses succeeding the guards never throw (the parse is deterministic)
and the run proceeds as `run`. The error value carries the status labels
written before the escape. -/
def runChecked (cfg : Config) (renv : RunEnv) (s0 : RunState) :
    Except (List String) RunResult :=
  match time_to_seconds cfg.start_time with
  | .error _ => .error ["waiting"]
  | .ok _ =>
    match time_to_seconds cfg.end_time with
    | .error _ => .error ["waiting", "capturing"]
    | .ok _ => .ok (run cfg renv s0)

/-- `main` (main.cpp lines 7..27): construct and run, returning exit status
0; a setup throw from the constructor is caught (`catch std::runtime_error`)
and turns into exit status 1, and an exception escaping `run` — such as the
`std::stoi`/`substr` throw from a malformed schedule time in the loop guards
— is caught by the generic `catch (const std::exception&)` and also turns
into exit status 1. Capture, assembly and status-write failures throw
nothing in the source and are absorbed inside `run`. -/
def main_model (setup : SetupOutcome) (renv : RunEnv) : Int × Option RunResult :=
  match setup with
  | .ok cfg =>
    match runChecked cfg renv initialRunState with
    | .ok r => (0, some r)
    | .error _ => (1, none)
  | _ => (1, none)

/-! ## Basic lemmas about the embedded operations -/

/-- The boolean `capture_photo` returns is exactly the `captureSucceeds`
classification. -/
theorem capture_photo_fst (cfg : Config) (env : CaptureEnv) (s : RunState) :
    (capture_photo cfg env s).1 = captureSucceeds env := by
  unfold capture_photo captureSucceeds
  by_cases h1 : env.systemResult = -1
  · simp [h1]
  · by_cases h2 : wexitstatus env.systemResult = 0 <;> simp [h1, h2]

/-- The state `capture_photo` returns, as one case split on the
classification. -/
theorem capture_photo_snd (cfg : Config) (env : CaptureEnv) (s : RunState) :
    (capture_photo cfg env s).2 =
      if captureSucceeds env then
        { s with photo_count := s.photo_count + 1
                 photo_files := s.photo_files ++ [photoFilename cfg (s.photo_count + 1)]
                 last_capture_success := true
                 last_capture_epoch := env.epochNow }
      else
        { s with photo_count := s.photo_count + 1
                 capture_errors := s.capture_errors + 1
                 last_capture_success := false } := by
  unfold capture_photo captureSucceeds
  by_cases h1 : env.systemResult = -1
  · simp [h1]
  · by_cases h2 : wexitstatus env.systemResult = 0 <;> simp [h1, h2]

/-- Mapping a constant over a list yields a replicate of its length. -/
theorem map_const_replicate (c : String) :
    ∀ l : List TickResult, l.map (fun _ => c) = List.replicate l.length c
  | [] => rfl
  | x :: xs => by
    simp only [List.map_cons, List.length_cons, List.replicate_succ,
      map_const_replicate c xs]

/-- The status labels a run writes, in order: "waiting", "capturing" once
before the loop and once per tick, "creating_video", "finished". -/
theorem statusTrace_eq (cfg : Config) (renv : RunEnv) (s0 : RunState) :
    (run cfg renv s0).statusTrace =
      "waiting" :: List.replicate (renv.ticks.length + 1) "capturing" ++
        ["creating_video", "finished"] := by
  have hlen : ∀ (ts : List TickEnv) (s : RunState),
      (captureLoop cfg ts s).2.length = ts.length := by
    intro ts
    induction ts with
    | nil => intro s; rfl
    | cons t ts ih => intro s; simp [captureLoop, ih]
  show "waiting" :: "capturing" :: _ = _
  rw [map_const_replicate, hlen, List.replicate_succ]
  rfl

/-- A list ending in two fixed elements has the second as its last. -/
theorem getLast_append_two (l : List String) (a b : String) :
    (l ++ [a, b]).getLast? = some b := by
  rw [List.getLast?_append_cons]
  rfl

/-- Every run's final status write is "finished". -/
theorem statusTrace_last (cfg : Config) (renv : RunEnv) (s0 : RunState) :
    (run cfg renv s0).statusTrace.getLast? = some "finished" := by
  rw [statusTrace_eq]
  rw [show "waiting" :: List.replicate (renv.ticks.length + 1) "capturing" ++
        ["creating_video", "finished"] =
      ("waiting" :: List.replicate (renv.ticks.length + 1) "capturing") ++
        ["creating_video", "finished"] from rfl]
  exact getLast_append_two _ _ _

/-- Collapsing drops a duplicated head. -/
theorem collapseRuns_cons_cons_same (a : String) (l : List String) :
    collapseRuns (a :: a :: l) = collapseRuns (a :: l) := by
  simp [collapseRuns]

/-- The capture-loop block of the trace collapses to one "capturing". -/
theorem collapseRuns_capturing (n : Nat) :
    collapseRuns (List.replicate (n + 1) "capturing" ++ ["creating_video", "finished"]) =
      ["capturing", "creating_video", "finished"] := by
  induction n with
  | zero => rfl
  | succ k ih =>
    rw [show List.replicate (k + 1 + 1) "capturing" ++ ["creating_video", "finished"] =
          "capturing" :: "capturing" :: (List.replicate k "capturing" ++
            ["creating_video", "finished"]) from by
        rw [List.replicate_succ, List.replicate_succ]; rfl]
    rw [collapseRuns_cons_cons_same]
    rw [show "capturing" :: (List.replicate k "capturing" ++ ["creating_video", "finished"]) =
          List.replicate (k + 1) "capturing" ++ ["creating_video", "finished"] from by
        rw [List.replicate_succ]; rfl]
    exact ih

/-- The final state of the capture loop appends exactly the successful
captures' filenames, in tick order, to the frame sequence. -/
theorem captureLoop_photo_files (cfg : Config) :
    ∀ (ts : List TickEnv) (s : RunState),
      (captureLoop cfg ts s).1.photo_files =
        s.photo_files ++ successFilenames cfg s.photo_count ts := by
  intro ts
  induction ts with
  | nil => intro s; simp [captureLoop, successFilenames]
  | cons t ts ih =>
    intro s
    show (captureLoop cfg ts (runTick cfg t s).state).1.photo_files = _
    rw [ih]
    have hstate : (runTick cfg t s).state =
        { (capture_photo cfg t.cap s).2 with
            last_capture_duration_ms := t.durationMs } := rfl
    rw [hstate, capture_photo_snd]
    by_cases h : captureSucceeds t.cap
    · simp [h, successFilenames]
    · simp [h, successFilenames]

/-! ## Concrete sample data used by witnesses and counterexamples -/

/-- A representative configuration (the shape the constructor builds for
device Pi0Cam on 2025-10-11). -/
def sampleConfig : Config :=
  { output_dir := "pics/20251011_Pi0Cam_pics/"
    filename_stem := "20251011_Pi0Cam"
    base_capture_command := "libcamera-still"
    device_id := "Pi0Cam"
    date_str := "2025-10-11"
    start_time := "09:00:00"
    end_time := "17:00:00"
    interval_seconds := 30
    expected_photos := 960
    video_filename := "videos/20251011_Pi0Cam_timelapse.mp4" }

/-- A configuration identical to `sampleConfig` except that the schedule's
start string is "late": nonempty — so `load_today_schedule`'s only check
passes and setup succeeds — but not parseable as a time. -/
def lateConfig : Config :=
  { sampleConfig with start_time := "late" }

/-- A tick whose capture succeeds (raw status 0) in 1 second. -/
def okTick : TickEnv :=
  { cap := { systemResult := 0, fileReadable := true, epochNow := 100 }
    durationSec := 1
    durationMs := 1000
    statusWritable := true
    statusEpoch := 101 }

/-- A tick whose capture fails (raw status 256, exit code 1) and overruns
the 30-second interval. -/
def failTick : TickEnv :=
  { cap := { systemResult := 256, fileReadable := true, epochNow := 200 }
    durationSec := 45
    durationMs := 45000
    statusWritable := true
    statusEpoch := 201 }

/-- A video environment in which every frame decodes and the writer opens. -/
def allDecodeEnv : VideoEnv :=
  { decodes := fun _ => true, writerOpens := true }

/-- A run environment with one succeeding and one failing tick. -/
def sampleRunEnv : RunEnv :=
  { ticks := [okTick, failTick]
    waitPolls := 2
    waitWritable := true
    waitEpoch := 50
    startWritable := true
    startEpoch := 60
    assembleWritable := true
    assembleEpoch := 300
    finishWritable := false
    finishEpoch := 301
    video := allDecodeEnv }

/-- A run environment admitting no ticks. -/
def emptyRunEnv : RunEnv :=
  { ticks := []
    waitPolls := 0
    waitWritable := true
    waitEpoch := 50
    startWritable := true
    startEpoch := 60
    assembleWritable := true
    assembleEpoch := 300
    finishWritable := true
    finishEpoch := 301
    video := allDecodeEnv }

/-! ## The claims -/

/-- C1, counterexample: the claim requires success only when the produced
file is readable, but with raw `system` status 0 and an UNREADABLE output
file `capture_photo` still returns true and appends the filename: the code
never inspects the file. -/
theorem capture_success_ignores_readability_cex :
    (capture_photo sampleConfig
        { systemResult := 0, fileReadable := false, epochNow := 100 }
        initialRunState).1 = true ∧
    (capture_photo sampleConfig
        { systemResult := 0, fileReadable := false, epochNow := 100 }
        initialRunState).2.photo_files =
      ["pics/20251011_Pi0Cam_pics/20251011_Pi0Cam0001.jpg"] :=
  ⟨rfl, rfl⟩

/-- C1 (amended): a capture attempt is classified a success — returning true
and appending the computed filename to the frame sequence — if and only if
`std::system` did not return -1 and the wait status's exit code is 0; the
readability of the produced file is never consulted (the result is invariant
under it), and a failed attempt appends nothing. -/
theorem capture_success_iff_exit_zero (cfg : Config) (env : CaptureEnv) (s : RunState) :
    ((capture_photo cfg env s).1 = true ↔
      env.systemResult ≠ -1 ∧ wexitstatus env.systemResult = 0) ∧
    (∀ b : Bool, capture_photo cfg { env with fileReadable := b } s =
      capture_photo cfg env s) ∧
    ((capture_photo cfg env s).1 = true →
      (capture_photo cfg env s).2.photo_files =
        s.photo_files ++ [photoFilename cfg (s.photo_count + 1)]) ∧
    ((capture_photo cfg env s).1 = false →
      (capture_photo cfg env s).2.photo_files = s.photo_files) := by
  refine ⟨?_, fun b => rfl, ?_, ?_⟩
  · rw [capture_photo_fst]
    simp [captureSucceeds]
  · rw [capture_photo_fst, capture_photo_snd]
    by_cases h : captureSucceeds env <;> simp [h]
  · rw [capture_photo_fst, capture_photo_snd]
    by_cases h : captureSucceeds env <;> simp [h]

/-- C2: with a positive interval I and measured tick duration d, the sleep
the loop performs is max(0, I - d), never negative; it is skipped (slept 0)
with the drift warning logged exactly when d ≥ I. -/
theorem tick_sleep_drift_spec (cfg : Config) (t : TickEnv) (s : RunState)
    (hI : 0 < cfg.interval_seconds) :
    (runTick cfg t s).sleepSec = max 0 (cfg.interval_seconds - t.durationSec) ∧
    0 ≤ (runTick cfg t s).sleepSec ∧
    ((runTick cfg t s).drift = true ↔ cfg.interval_seconds ≤ t.durationSec) ∧
    (cfg.interval_seconds ≤ t.durationSec → (runTick cfg t s).sleepSec = 0) := by
  have hs : (runTick cfg t s).sleepSec = tickSleep cfg.interval_seconds t.durationSec := rfl
  have hd : (runTick cfg t s).drift = tickDrift cfg.interval_seconds t.durationSec := rfl
  rw [hs, hd]
  unfold tickSleep tickDrift
  refine ⟨?_, ?_, ?_, ?_⟩
  · rw [max_def]
    split_ifs <;> omega
  · split_ifs <;> omega
  · simp only [decide_eq_true_eq]
    omega
  · intro h
    split_ifs <;> omega

/-- C2 witness: with interval 30 and a 45-second tick, the performed sleep
is 0. -/
theorem tick_sleep_drift_spec_witness :
    (runTick sampleConfig failTick initialRunState).sleepSec = 0 :=
  (tick_sleep_drift_spec sampleConfig failTick initialRunState (by decide)).2.2.2
    (by decide)

/-- C3: every capture attempt advances the photo counter by exactly 1,
success or failure; a failed attempt increments the error counter by exactly
1 and appends nothing to the frame sequence, a successful one leaves the
error counter unchanged. -/
theorem capture_counters_spec (cfg : Config) (env : CaptureEnv) (s : RunState) :
    (capture_photo cfg env s).2.photo_count = s.photo_count + 1 ∧
    ((capture_photo cfg env s).1 = false →
      (capture_photo cfg env s).2.capture_errors = s.capture_errors + 1 ∧
      (capture_photo cfg env s).2.photo_files = s.photo_files) ∧
    ((capture_photo cfg env s).1 = true →
      (capture_photo cfg env s).2.capture_errors = s.capture_errors) := by
  rw [capture_photo_fst, capture_photo_snd]
  by_cases h : captureSucceeds env <;> simp [h]

/-- Whenever `create_video` produces a video file, the frames written are
the decodable frame paths, kept in list order. -/
theorem create_video_video_filter (env : VideoEnv) (vf : String) (pf : List String)
    (l : List String) (h : (create_video env vf pf).video = some l) :
    l = pf.filter env.decodes := by
  match pf with
  | [] => simp [create_video] at h
  | p :: ps =>
    by_cases hd : env.decodes p = false
    · simp [create_video, hd] at h
    · have hd' : env.decodes p = true := by
        cases hvp : env.decodes p
        · exact absurd hvp hd
        · rfl
      by_cases hw : env.writerOpens = false
      · simp [create_video, hd, hw] at h
      · simp [create_video, hd, hw] at h
        rw [List.filter_cons_of_pos hd']
        exact h.symm

/-- A video environment that fails to decode exactly the path "b". -/
def skipBEnv : VideoEnv :=
  { decodes := fun p => p != "b", writerOpens := true }

/-- C4: the frame-path list handed to the assembler (the run's final
`photo_files`) is exactly the successful captures' filenames in chronological
tick order, and whatever frame list the assembler writes is that list
filtered by decodability — a sublist, so written in the same order, never
reordered. -/
theorem frame_order_roundtrip (cfg : Config) (renv : RunEnv) :
    (run cfg renv initialRunState).finalState.photo_files =
      successFilenames cfg 0 renv.ticks ∧
    ∀ l, (run cfg renv initialRunState).videoResult.video = some l →
      l = ((run cfg renv initialRunState).finalState.photo_files).filter
            renv.video.decodes ∧
      List.Sublist l ((run cfg renv initialRunState).finalState.photo_files) := by
  have hfin : (run cfg renv initialRunState).finalState =
      (captureLoop cfg renv.ticks initialRunState).1 := rfl
  have hvid : (run cfg renv initialRunState).videoResult =
      create_video renv.video cfg.video_filename
        (captureLoop cfg renv.ticks initialRunState).1.photo_files := rfl
  constructor
  · rw [hfin, captureLoop_photo_files]
    rfl
  · intro l hl
    rw [hvid] at hl
    have hfilter := create_video_video_filter _ _ _ _ hl
    rw [hfin]
    exact ⟨hfilter, hfilter ▸ List.filter_sublist _⟩

/-- C5, counterexample: with frames ["a", "b"] where "b" fails to decode,
the video contains the single frame "a", yet the logged "actual video
length" is 2/25 — frame-count over fps uses all frame paths, not the frames
actually written, so it differs from 1/25. -/
theorem reported_length_counts_skipped_cex :
    (create_video skipBEnv "out.mp4" ["a", "b"]).video = some ["a"] ∧
    (create_video skipBEnv "out.mp4" ["a", "b"]).reportedLength =
      some (((2 : Nat) : ℚ) / ((25 : Nat) : ℚ)) ∧
    (create_video skipBEnv "out.mp4" ["a", "b"]).reportedLength ≠
      some (((["a"] : List String).length : ℚ) / (fps : ℚ)) := by
  refine ⟨rfl, rfl, ?_⟩
  intro hEq
  rw [show (create_video skipBEnv "out.mp4" ["a", "b"]).reportedLength =
        some (((2 : Nat) : ℚ) / ((25 : Nat) : ℚ)) from rfl] at hEq
  have h2 := Option.some.inj hEq
  norm_num [fps] at h2

/-- C5 (amended): a frame whose image data fails to decode is silently
skipped — the video holds exactly the decodable frames, in order — but the
reported output duration is (total number of frame paths) / 25, which equals
frames-written / 25 only when every frame decodes. -/
theorem create_video_skip_and_length (env : VideoEnv) (vf : String) (p : String)
    (ps : List String) (hd : env.decodes p = true) (hw : env.writerOpens = true) :
    (create_video env vf (p :: ps)).video = some ((p :: ps).filter env.decodes) ∧
    List.Sublist ((p :: ps).filter env.decodes) (p :: ps) ∧
    (create_video env vf (p :: ps)).reportedLength =
      some (((p :: ps).length : ℚ) / (fps : ℚ)) := by
  have h1 : ¬ (env.decodes p = false) := by simp [hd]
  have h2 : ¬ (env.writerOpens = false) := by simp [hw]
  refine ⟨?_, List.filter_sublist _, ?_⟩ <;>
    simp [create_video, h1, h2]

/-- C5 witness: in an environment where everything decodes, a two-frame run
writes both frames and reports 2/25 seconds. -/
theorem create_video_skip_and_length_witness :
    (create_video allDecodeEnv "out.mp4" ["a", "b"]).video = some ["a", "b"] :=
  (create_video_skip_and_length allDecodeEnv "out.mp4" "a" ["b"] rfl rfl).1

/-- C6, counterexample: after a successful attempt at epoch 100 followed by
a failed attempt at epoch 200, the state still holds epoch 100 — the
timestamp is NOT that of the most recent attempt, because the failure
branches never update `last_capture_epoch`. -/
theorem failed_attempt_keeps_old_epoch_cex :
    ((runTick sampleConfig failTick
        (runTick sampleConfig okTick initialRunState).state).state.last_capture_success
      = false) ∧
    ((runTick sampleConfig failTick
        (runTick sampleConfig okTick initialRunState).state).state.last_capture_epoch
      = 100) ∧
    ((runTick sampleConfig failTick
        (runTick sampleConfig okTick initialRunState).state).state.last_capture_epoch
      ≠ failTick.cap.epochNow) := by
  refine ⟨rfl, rfl, by decide⟩

/-- C6 (amended): after every tick, RunState holds the success flag and the
measured duration of that most recent attempt, but the timestamp only of the
most recent SUCCESSFUL attempt (a failed attempt leaves the previous value);
the snapshot written right after the tick reports exactly these stored
values. -/
theorem last_attempt_fields (cfg : Config) (t : TickEnv) (s : RunState)
    (hw : t.statusWritable = true) :
    (runTick cfg t s).state.last_capture_success = captureSucceeds t.cap ∧
    (runTick cfg t s).state.last_capture_duration_ms = t.durationMs ∧
    (runTick cfg t s).state.last_capture_epoch =
      (if captureSucceeds t.cap then t.cap.epochNow else s.last_capture_epoch) ∧
    (runTick cfg t s).snapshot =
      some (statusSnapshotOf "capturing" cfg (runTick cfg t s).state t.statusEpoch) := by
  have hstate : (runTick cfg t s).state =
      { (capture_photo cfg t.cap s).2 with last_capture_duration_ms := t.durationMs } := rfl
  have hsnap : (runTick cfg t s).snapshot =
      write_status_file "capturing" cfg (runTick cfg t s).state t.statusWritable
        t.statusEpoch := rfl
  refine ⟨?_, ?_, ?_, ?_⟩
  · rw [hstate, capture_photo_snd]
    by_cases h : captureSucceeds t.cap <;> simp [h]
  · rw [hstate]
  · rw [hstate, capture_photo_snd]
    by_cases h : captureSucceeds t.cap <;> simp [h]
  · rw [hsnap, write_status_file, hw]
    simp

/-- C6 witness: after the successful sample tick, the stored duration is the
tick's measured duration. -/
theorem last_attempt_fields_witness :
    (runTick sampleConfig okTick initialRunState).state.last_capture_duration_ms =
      okTick.durationMs :=
  (last_attempt_fields sampleConfig okTick initialRunState rfl).2.1

/-- The defining equation of `collapseRuns` on a two-or-more element list. -/
theorem collapseRuns_cons_cons (a b : String) (l : List String) :
    collapseRuns (a :: b :: l) =
      if a = b then collapseRuns (b :: l) else a :: collapseRuns (b :: l) := rfl

/-- C7: every run writes the status labels "waiting", then "capturing"
(once before the loop and once per tick), then "creating_video", then
"finished"; collapsing consecutive repeats, the run passes through the four
lifecycle phases exactly once each, in that order, never returning to an
earlier one. -/
theorem phase_sequence_once_in_order (cfg : Config) (renv : RunEnv) :
    (run cfg renv initialRunState).statusTrace =
      "waiting" :: List.replicate (renv.ticks.length + 1) "capturing" ++
        ["creating_video", "finished"] ∧
    collapseRuns (run cfg renv initialRunState).statusTrace =
      ["waiting", "capturing", "creating_video", "finished"] := by
  refine ⟨statusTrace_eq cfg renv initialRunState, ?_⟩
  rw [statusTrace_eq]
  have h1 : ("waiting" : String) :: List.replicate (renv.ticks.length + 1) "capturing" ++
      ["creating_video", "finished"] =
      "waiting" :: "capturing" :: (List.replicate renv.ticks.length "capturing" ++
        ["creating_video", "finished"]) := by
    rw [List.replicate_succ]
    rfl
  rw [h1, collapseRuns_cons_cons,
    if_neg (by decide : ¬ ("waiting" : String) = "capturing")]
  have h2 : ("capturing" : String) :: (List.replicate renv.ticks.length "capturing" ++
      ["creating_video", "finished"]) =
      List.replicate (renv.ticks.length + 1) "capturing" ++
        ["creating_video", "finished"] := by
    rw [List.replicate_succ]
    rfl
  rw [h2, collapseRuns_capturing]

/-- C8: when the frame sequence is empty at assembly, `create_video` is a
no-op — no video file, just the skip notice in the log — and the run still
writes the terminal "finished" status. -/
theorem empty_frames_assembly_noop (cfg : Config) (renv : RunEnv)
    (h : (captureLoop cfg renv.ticks initialRunState).1.photo_files = []) :
    (run cfg renv initialRunState).videoResult.video = none ∧
    (run cfg renv initialRunState).videoResult.logs =
      ["No photos to create video from! Skipping."] ∧
    (run cfg renv initialRunState).statusTrace.getLast? = some "finished" := by
  have hvid : (run cfg renv initialRunState).videoResult =
      create_video renv.video cfg.video_filename
        (captureLoop cfg renv.ticks initialRunState).1.photo_files := rfl
  rw [hvid, h]
  exact ⟨rfl, rfl, statusTrace_last cfg renv initialRunState⟩

/-- C8 witness: a run admitting no ticks assembles nothing. -/
theorem empty_frames_assembly_noop_witness :
    (run sampleConfig emptyRunEnv initialRunState).videoResult.video = none :=
  (empty_frames_assembly_noop sampleConfig emptyRunEnv rfl).1

/-- With setup done, `main_model`'s outcome is decided by whether both
schedule time strings parse. -/
theorem main_model_ok (cfg : Config) (renv : RunEnv) :
    main_model (SetupOutcome.ok cfg) renv =
      if timesParse cfg = true then (0, some (run cfg renv initialRunState))
      else (1, none) := by
  unfold main_model runChecked timesParse parses
  cases hst : time_to_seconds cfg.start_time with
  | error e => simp [hst]
  | ok a =>
    cases hend : time_to_seconds cfg.end_time with
    | error e => simp [hst, hend]
    | ok b => simp [hst, hend]

/-- C9, counterexample: with schedule start string "late" — nonempty, so
`load_today_schedule`'s only validation passes and setup succeeds — the
first `is_time_to_start` guard's `time_to_seconds` call throws; the
exception escapes `run` into main's generic catch and the process exits 1.
A non-setup error produces a non-zero exit status, refuting the claim. -/
theorem runtime_parse_error_nonzero_exit_cex :
    essential_schedule_missing lateConfig.date_str lateConfig.start_time
      lateConfig.end_time lateConfig.interval_seconds = false ∧
    time_to_seconds lateConfig.start_time = .error () ∧
    (main_model (SetupOutcome.ok lateConfig) emptyRunEnv).1 = 1 ∧
    ¬ (main_model (SetupOutcome.ok lateConfig) emptyRunEnv).1 = 0 := by
  refine ⟨rfl, rfl, rfl, fun hc => ?_⟩
  rw [show (main_model (SetupOutcome.ok lateConfig) emptyRunEnv).1 = 1 from rfl] at hc
  exact absurd hc one_ne_zero

/-- C9 (amended): the exit status is 0 exactly when setup succeeds AND both
schedule time strings parse, so no exception escapes the loop guards. With
parsable times the exit status is 0 for EVERY run environment — however
many captures fail, whether assembly aborts, whether status writes fail —
and the run reaches the terminal "finished" write; with setup done but an
unparsable (though nonempty) time string, the guard's exception is caught
by main's generic handler and the exit status is 1, like a setup failure. -/
theorem exit_status_setup_or_guard_throw (setup : SetupOutcome) (renv : RunEnv) :
    ((main_model setup renv).1 = 0 ↔
      ∃ cfg, setup = SetupOutcome.ok cfg ∧ timesParse cfg = true) ∧
    (∀ cfg, timesParse cfg = true →
      (main_model (SetupOutcome.ok cfg) renv).1 = 0 ∧
      (main_model (SetupOutcome.ok cfg) renv).2 =
        some (run cfg renv initialRunState) ∧
      (run cfg renv initialRunState).statusTrace.getLast? = some "finished") ∧
    (∀ cfg, timesParse cfg = false →
      (main_model (SetupOutcome.ok cfg) renv).1 = 1) := by
  refine ⟨?_, ?_, ?_⟩
  · cases setup with
    | ok cfg =>
      rw [main_model_ok]
      by_cases hp : timesParse cfg = true
      · simp [hp]
      · simp [hp]
    | dirCreationFailed => simp [main_model]
    | configLoadFailed => simp [main_model]
    | scheduleLoadFailed => simp [main_model]
    | outputDirFailed => simp [main_model]
  · intro cfg hp
    rw [main_model_ok, if_pos hp]
    exact ⟨rfl, rfl, statusTrace_last cfg renv initialRunState⟩
  · intro cfg hp
    rw [main_model_ok, if_neg (by simp [hp])]

/-- `cppStoi` on a two-digit-character string is the two-digit value. -/
theorem cppStoi_two_digits (a b : Nat) (ha : a ≤ 9) (hb : b ≤ 9) :
    cppStoi (String.mk [Char.ofNat (48 + a), Char.ofNat (48 + b)]) =
      .ok (((10 * a + b : Nat) : Int)) := by
  interval_cases a <;> interval_cases b <;> rfl

/-- Propagation of a non-exceptional value through `Except`'s bind. -/
theorem bindOk {α β : Type} (a : α) (f : α → Except Unit β) :
    ((Except.ok a : Except Unit α) >>= f) = f a := rfl

/-- A digit character built from a value below ten is a digit. -/
theorem isDigit_ofNat_digit (a : Nat) (ha : a ≤ 9) :
    (Char.ofNat (48 + a)).isDigit = true := by
  interval_cases a <;> rfl

/-- C10, counterexample: "12x34x56" is not of the form HH:MM:SS, yet
`time_to_seconds` raises no exception on it — the separators at positions 2
and 5 are never inspected, so the parse succeeds with 12*3600+34*60+56. The
claim that EVERY malformed start/end string makes an exception escape is
false. -/
theorem time_to_seconds_no_throw_cex :
    isHHMMSS "12x34x56" = false ∧
    time_to_seconds "12x34x56" = .ok 45296 ∧
    time_to_seconds "12x34x56" ≠ .error () := by
  refine ⟨rfl, rfl, fun hc => ?_⟩
  rw [show time_to_seconds "12x34x56" = Except.ok 45296 from rfl] at hc
  exact Except.noConfusion hc

/-- C10 (amended): `time_to_seconds` parses by fixed-position substrings and
integer conversion. For every well-formed HH:MM:SS string the result is
HH*3600 + MM*60 + SS, and the loader's only validation of the start/end
strings is non-emptiness, so malformed strings such as "9:00" or "late" pass
the load and make the parse throw; but not every malformed string throws —
only those where a substring position is out of range or a field has no
leading digits (the separator characters are never checked). -/
theorem time_to_seconds_spec (h m s : Nat) (hh : h ≤ 99) (hm : m ≤ 99) (hs : s ≤ 99) :
    time_to_seconds (mkHHMMSS h m s) =
      .ok ((h : Int) * 3600 + (m : Int) * 60 + (s : Int)) ∧
    isHHMMSS (mkHHMMSS h m s) = true ∧
    time_to_seconds "9:00" = .error () ∧
    time_to_seconds "late" = .error () ∧
    essential_schedule_missing "2025-10-11" "9:00" "late" 30 = false := by
  have e1 : cppSubstr (mkHHMMSS h m s) 0 2 =
      .ok (String.mk [Char.ofNat (48 + h / 10), Char.ofNat (48 + h % 10)]) := rfl
  have e2 : cppSubstr (mkHHMMSS h m s) 3 2 =
      .ok (String.mk [Char.ofNat (48 + m / 10), Char.ofNat (48 + m % 10)]) := rfl
  have e3 : cppSubstr (mkHHMMSS h m s) 6 2 =
      .ok (String.mk [Char.ofNat (48 + s / 10), Char.ofNat (48 + s % 10)]) := rfl
  have d1 := cppStoi_two_digits (h / 10) (h % 10) (by omega) (by omega)
  have d2 := cppStoi_two_digits (m / 10) (m % 10) (by omega) (by omega)
  have d3 := cppStoi_two_digits (s / 10) (s % 10) (by omega) (by omega)
  refine ⟨?_, ?_, rfl, rfl, rfl⟩
  · unfold time_to_seconds
    rw [e1, bindOk, d1, bindOk, e2, bindOk, d2, bindOk, e3, bindOk, d3, bindOk]
    refine congrArg Except.ok ?_
    push_cast
    omega
  · have g1 := isDigit_ofNat_digit (h / 10) (by omega)
    have g2 := isDigit_ofNat_digit (h % 10) (by omega)
    have g3 := isDigit_ofNat_digit (m / 10) (by omega)
    have g4 := isDigit_ofNat_digit (m % 10) (by omega)
    have g5 := isDigit_ofNat_digit (s / 10) (by omega)
    have g6 := isDigit_ofNat_digit (s % 10) (by omega)
    simp [isHHMMSS, mkHHMMSS, g1, g2, g3, g4, g5, g6]

/-- C10 witness: "09:30:05" style input built from 9, 30, 5 parses to
9*3600 + 30*60 + 5. -/
theorem time_to_seconds_spec_witness :
    time_to_seconds (mkHHMMSS 9 30 5) =
      .ok ((9 : Int) * 3600 + (30 : Int) * 60 + (5 : Int)) :=
  (time_to_seconds_spec 9 30 5 (by omega) (by omega) (by omega)).1

end Timelapse
